/-
Verification of the VRSInjector shading-rate-map cache and GPU-synchronization
manager (`CommandManager`, src/unnamed/part_000) and of the shading-rate
classification compute shader (`GenerateShadingRateMapCS`, src/unnamed/part_004).

The embedding follows the source:
* `UINT` arithmetic is `Nat` with explicit reduction modulo 2^32 where the
  source can overflow (the `Align` macro).
* Float quantities that the claims reason about (gaze coordinates, ring radii,
  shader constants) are embedded as rationals `ℚ`, keeping the exact arithmetic
  structure of the source expressions.
* D3D12 objects are identities: command lists and textures are `Nat` ids, the
  GPU's completed-fence counter is an input to each call.
* Fallible / undefined-behaviour paths return `Option` (`none` models the crash
  or undefined behaviour; in this code base all GPU API failures are fatal by
  design, and the one reachable undefined behaviour is an integer division by
  zero, see `tiledResolutionOf`).
-/
import Mathlib

namespace VRS

/-- One past the largest `UINT` value: C++ `UINT` arithmetic wraps modulo this. -/
def UINT_MOD : Nat := 2 ^ 32

/-- D3D12_SHADING_RATE_1X1 (full rate). -/
def D3D12_SHADING_RATE_1X1 : Nat := 0
/-- D3D12_SHADING_RATE_2X2 (medium rate). -/
def D3D12_SHADING_RATE_2X2 : Nat := 5
/-- D3D12_SHADING_RATE_4X4 (lowest rate). -/
def D3D12_SHADING_RATE_4X4 : Nat := 10

/-- Embeds the `Align` macro (part_000, line 38):
`((value) + (pad_to)-1) & ~((pad_to)-1)` computed in 32-bit unsigned
arithmetic. Subtraction wraps (for `padTo = 0` the C expression `pad_to - 1`
yields `0xFFFFFFFF`), so both subtractions are written as addition of
`UINT_MOD - 1` followed by reduction modulo `2^32`; the C bitwise complement
`~m` of a 32-bit value is `(2^32 - 1) ^^^ m`. -/
def Align (value padTo : Nat) : Nat :=
  ((value + padTo + (UINT_MOD - 1)) % UINT_MOD) &&&
    ((UINT_MOD - 1) ^^^ ((padTo + (UINT_MOD - 1)) % UINT_MOD))

/-- Embeds `struct TiledResolution` (part_000, lines 53-72): the key of the
shading-rate-map cache. Equality is structural, as in the source `operator==`. -/
structure TiledResolution where
  width : Nat
  height : Nat
deriving DecidableEq, Repr

/-- Embeds the computation of `shadingRateMapResolution` in `Enable`
(part_000, lines 155-157):
`Align(UINT(Viewport.Width + DBL_EPSILON), m_VRSTileSize) / m_VRSTileSize` per
dimension. The claims quantify over viewports with positive integer dimensions,
for which the `static_cast<UINT>(w + DBL_EPSILON)` round-trip is the identity,
so the embedding takes the resulting `UINT` values directly. When
`tileSize = 0` (the state an unsupported device is left in, see
`CommandManager.mk'`) the C++ division is a division by zero - undefined
behaviour - modelled as `none`. -/
def tiledResolutionOf (vpWidth vpHeight tileSize : Nat) : Option TiledResolution :=
  if tileSize = 0 then none
  else some ⟨Align vpWidth tileSize / tileSize, Align vpHeight tileSize / tileSize⟩

/-- Embeds `struct GenerateShadingRateMapConstants` (part_000, lines 41-49):
the root constants passed to the generation compute shader. Together with the
deterministic shader they fully determine the texture content produced by a
generation dispatch. -/
structure Constants where
  centerX : ℚ
  centerY : ℚ
  innerRing : ℚ
  outerRing : ℚ
  rate1x1 : Nat
  rateMedium : Nat
  rateLow : Nat
deriving DecidableEq, Repr

/-- Inner ring radius used by `UpdateShadingRateMap` (part_000, line 396):
`0.25f * Resolution.Height` (the float literal 0.25f is exact). -/
def innerRingOf (height : ℚ) : ℚ := (1 / 4) * height

/-- Outer ring radius used by `UpdateShadingRateMap` (part_000, line 397):
`0.8f * Resolution.Height`. The float literal 0.8f is the float nearest to
4/5 (off by about 1.2e-8); the embedding uses the exact 4/5, which agrees with
the source on every comparison any claim here depends on. -/
def outerRingOf (height : ℚ) : ℚ := (4 / 5) * height

/-- Embeds the constants block built by `UpdateShadingRateMap`
(part_000, lines 392-400): `CenterX * Resolution.Width`,
`CenterY * Resolution.Height`, the two ring radii, and the three fixed rates. -/
def mapConstants (centerX centerY : ℚ) (res : TiledResolution) : Constants :=
  { centerX := centerX * res.width
    centerY := centerY * res.height
    innerRing := innerRingOf res.height
    outerRing := outerRingOf res.height
    rate1x1 := D3D12_SHADING_RATE_1X1
    rateMedium := D3D12_SHADING_RATE_2X2
    rateLow := D3D12_SHADING_RATE_4X4 }

/-- Embeds the per-tile classification of `GenerateShadingRateMapCS`
(part_004, lines 41-49). The shader first computes
`distance = sqrt(fromCenter.x^2 + fromCenter.y^2)` (line 39) and then only
compares that value, so the embedding takes the tile's Euclidean distance from
the center as the argument:

    uint rate = Rate1x1;
    if (distance >= OuterRing)      rate = RateLow;
    else if (distance >= InnerRing) rate = RateMedium;
-/
def shaderClassify (c : Constants) (distance : ℚ) : Nat :=
  if c.outerRing ≤ distance then c.rateLow
  else if c.innerRing ≤ distance then c.rateMedium
  else c.rate1x1

/-- Embeds the scale factor computed by `Enable` (part_000, line 169):
`std::clamp(distance / 600.f, 0.1f, 1.5f)`. -/
def scaleFactorOf (distance : ℚ) : ℚ :=
  min (max (distance / 600) (1 / 10)) (3 / 2)

/-- Embeds `struct ShadingRateMap` (part_000, lines 75-82), one cache entry.
`textureId` is the identity of `ShadingRateTexture` (with its UAV handles);
`content` stands for the texture's byte content: the generation shader is
deterministic, so the root-constants block of the last generation dispatch
written into the texture determines it. -/
structure ShadingRateMap where
  generation : Nat
  age : Nat
  textureId : Nat
  content : Constants
  completedFenceValue : Nat
deriving DecidableEq, Repr

/-- Embeds `struct CommandListDependency` (part_000, lines 84-87). -/
structure CommandListDependency where
  fenceValue : Nat
  age : Nat
deriving DecidableEq, Repr

/-- State of a `CommandManager` (part_000, lines 419-435). Command lists are
identified by `Nat` ids. `fenceCounter` is the completion-fence counter of the
manager's `CommandContext` (the last value signalled by a submission);
`nextTextureId` supplies fresh texture identities. -/
structure ManagerState where
  device : Bool
  vrsTileSize : Nat
  shadingRateMaps : TiledResolution → Option ShadingRateMap
  currentGeneration : Nat
  usingEyeGaze : Bool
  commandListDependencies : Nat → Option CommandListDependency
  fenceCounter : Nat
  nextTextureId : Nat

/-- Embeds `D3D12_FEATURE_DATA_D3D12_OPTIONS6` as observed by the constructor,
together with whether the `CheckFeatureSupport` call itself failed.
`D3D12_VARIABLE_SHADING_RATE_TIER_2` is the enum value 2. -/
structure FeatureSupport where
  checkFailed : Bool
  variableShadingRateTier : Nat
  shadingRateImageTileSize : Nat

/-- Embeds the constructor `CommandManager::CommandManager` (part_000, lines
89-146). `m_Device` is set in the initializer list before the support check;
on an unsupported device the constructor returns early, leaving
`m_VRSTileSize` at its default 0 (and creating no `m_Context`), but with
`m_Device` still holding the device pointer. -/
def CommandManager.init (deviceNonNull : Bool) (options : FeatureSupport) :
    ManagerState :=
  if options.checkFailed = true ∨ options.variableShadingRateTier ≠ 2 ∨
      options.shadingRateImageTileSize < 2 then
    { device := deviceNonNull
      vrsTileSize := 0
      shadingRateMaps := fun _ => none
      currentGeneration := 0
      usingEyeGaze := false
      commandListDependencies := fun _ => none
      fenceCounter := 0
      nextTextureId := 0 }
  else
    { device := deviceNonNull
      vrsTileSize := options.shadingRateImageTileSize
      shadingRateMaps := fun _ => none
      currentGeneration := 0
      usingEyeGaze := false
      commandListDependencies := fun _ => none
      fenceCounter := 0
      nextTextureId := 0 }

/-- Modelled from the spec: `CommandContext::SubmitCommandList` lives in
`D3D12Utils.cpp`, which is not among these sources (only its callers are).
Per spec sections 2 and 6, the GPU submission context "exposes a monotonically
increasing completion counter (fence)"; submitting a command list advances the
counter and returns "a fence value guaranteed to be reached only after that
submission's GPU work completes". Returns (new counter, returned fence value). -/
def submitCommandList (fenceCounter : Nat) : Nat × Nat :=
  (fenceCounter + 1, fenceCounter + 1)

/-- Modelled from the spec: `CommandContext::IsCommandListCompleted` (also in
`D3D12Utils.cpp`): the non-blocking query "has fence reached value V"
(spec section 6), i.e. whether the GPU's completed counter is at least the
queried value. -/
def isCommandListCompleted (gpuCompleted fenceValue : Nat) : Bool :=
  fenceValue ≤ gpuCompleted

/-- Record of one generation compute dispatch as issued by
`UpdateShadingRateMap`: the root-constants block written to the shader and the
scale-factor argument the call received. -/
structure DispatchCall where
  constants : Constants
  scaleFactor : ℚ
deriving DecidableEq, Repr

/-- Embeds `CommandManager::UpdateShadingRateMap` (part_000, lines 371-417):
builds the constants block, dispatches the generation compute shader targeting
the entry's texture, submits the command list, and stores the returned fence
value and the current generation in the entry. The `ScaleFactor` parameter is
accepted but not used by the body, as in the source. Returns the updated
entry, the new fence counter, and the dispatch issued. -/
def updateShadingRateMap (res : TiledResolution) (m : ShadingRateMap)
    (centerX centerY scaleFactor : ℚ) (currentGeneration fenceCounter : Nat) :
    ShadingRateMap × Nat × DispatchCall :=
  let constants := mapConstants centerX centerY res
  let submit := submitCommandList fenceCounter
  ({ m with
      content := constants
      completedFenceValue := submit.2
      generation := currentGeneration },
    submit.1, ⟨constants, scaleFactor⟩)

/-- Embeds `CommandManager::RequestShadingRateMap` (part_000, lines 319-369):
allocates a fresh texture (a fresh identity here) in a default-initialized
entry (Generation 0, Age 0) and immediately generates it in place via
`UpdateShadingRateMap`. The source also inserts the entry into the cache
(line 363); the caller `enableCore` performs that insertion. Returns the new
entry, the new fence counter and the dispatch issued. -/
def requestShadingRateMap (res : TiledResolution) (centerX centerY scaleFactor : ℚ)
    (currentGeneration fenceCounter textureId : Nat) :
    ShadingRateMap × Nat × DispatchCall :=
  let fresh : ShadingRateMap :=
    { generation := 0
      age := 0
      textureId := textureId
      content := ⟨0, 0, 0, 0, 0, 0, 0⟩
      completedFenceValue := 0 }
  updateShadingRateMap res fresh centerX centerY scaleFactor currentGeneration
    fenceCounter

/-- Pointwise model of `std::unordered_map::insert_or_assign`. -/
def insertOrAssign {α β : Type} [DecidableEq α] (m : α → Option β) (k : α)
    (v : β) : α → Option β :=
  fun a => if a = k then some v else m a

/-- Pointwise model of `std::unordered_map::erase`. -/
def eraseKey {α β : Type} [DecidableEq α] (m : α → Option β) (k : α) :
    α → Option β :=
  fun a => if a = k then none else m a

/-- Observable outcome of one `Enable` call: the successor state, the
generation dispatches issued (in order, with their arguments), the number of
`RSSetShadingRate` / `RSSetShadingRateImage` calls recorded on the
application's command list, and the texture bound by `RSSetShadingRateImage`. -/
structure EnableResult where
  state : ManagerState
  dispatches : List DispatchCall
  rsCalls : Nat
  boundTexture : Option Nat

/-- Embeds the body of `Enable` on the `m_Device` path (part_000, lines
154-219), after the tiled resolution has been computed. `gaze` is
`some (x, y, distance)` when an eye-gaze manager is present and its `GetGaze`
returned `true` (writing those outputs); `none` otherwise (no manager, or
`GetGaze` returned `false` leaving the defaults `0.5, 0.5, 600` in place).
`gpuCompleted` is the completion counter value the GPU has reached when
`IsCommandListCompleted` is consulted. -/
def enableCore (st : ManagerState) (commandList : Nat) (res : TiledResolution)
    (gaze : Option (ℚ × ℚ × ℚ)) (gpuCompleted : Nat) : EnableResult :=
  -- Lines 163-169: defaults, the eye-gaze latch and the scale factor.
  let wasUsingEyeGaze := st.usingEyeGaze
  let usingNow := gaze.isSome
  let g := gaze.getD (1 / 2, 1 / 2, 600)
  let isEyeGazeAvailable := usingNow || wasUsingEyeGaze
  let scaleFactor := scaleFactorOf g.2.2
  let st0 := { st with usingEyeGaze := usingNow }
  match st0.shadingRateMaps res with
  | some entry =>
      -- Lines 177-193: cache hit. Regenerate in place when eye gaze is (or
      -- just was) available and the entry's generation is stale, then reset
      -- its age and snapshot it.
      let upd :=
        if isEyeGazeAvailable then
          if entry.generation ≠ st0.currentGeneration then
            let u := updateShadingRateMap res entry g.1 g.2.1 scaleFactor
              st0.currentGeneration st0.fenceCounter
            (u.1, u.2.1, [u.2.2])
          else (entry, st0.fenceCounter, ([] : List DispatchCall))
        else (entry, st0.fenceCounter, ([] : List DispatchCall))
      let snapshot : ShadingRateMap := { upd.1 with age := 0 }
      let skipDependency :=
        isCommandListCompleted gpuCompleted snapshot.completedFenceValue
      -- Lines 212-219: record the dependency unless the map is known complete.
      let st2 := { st0 with
        shadingRateMaps := insertOrAssign st0.shadingRateMaps res snapshot
        fenceCounter := upd.2.1
        commandListDependencies :=
          if skipDependency then st0.commandListDependencies
          else insertOrAssign st0.commandListDependencies commandList
            ⟨snapshot.completedFenceValue, 0⟩ }
      { state := st2, dispatches := upd.2.2, rsCalls := 2
        boundTexture := some snapshot.textureId }
  | none =>
      -- Lines 195-198: cache miss; `RequestShadingRateMap` generates and
      -- inserts the new entry (source line 363).
      let req := requestShadingRateMap res g.1 g.2.1 scaleFactor
        st0.currentGeneration st0.fenceCounter st0.nextTextureId
      let snapshot := req.1
      let skipDependency :=
        isCommandListCompleted gpuCompleted snapshot.completedFenceValue
      let st2 := { st0 with
        shadingRateMaps := insertOrAssign st0.shadingRateMaps res snapshot
        fenceCounter := req.2.1
        nextTextureId := st0.nextTextureId + 1
        commandListDependencies :=
          if skipDependency then st0.commandListDependencies
          else insertOrAssign st0.commandListDependencies commandList
            ⟨snapshot.completedFenceValue, 0⟩ }
      { state := st2, dispatches := [req.2.2], rsCalls := 2
        boundTexture := some snapshot.textureId }

/-- Embeds `CommandManager::Enable` (part_000, lines 148-225). When `m_Device`
tests false the call only traces (lines 220-222). Otherwise it computes the
tiled resolution - `none` models the division by zero (undefined behaviour)
that `Align(w, 0) / 0` performs when `m_VRSTileSize` is 0, which is exactly
the state an unsupported device leaves the manager in - and then runs the
cache logic. -/
def Enable (st : ManagerState) (commandList vpWidth vpHeight : Nat)
    (gaze : Option (ℚ × ℚ × ℚ)) (gpuCompleted : Nat) : Option EnableResult :=
  if st.device then
    match tiledResolutionOf vpWidth vpHeight st.vrsTileSize with
    | none => none
    | some res => some (enableCore st commandList res gaze gpuCompleted)
  else
    some { state := st, dispatches := [], rsCalls := 0, boundTexture := none }

/-- Observable outcome of one `Disable` call. -/
structure DisableResult where
  state : ManagerState
  rsCalls : Nat

/-- Embeds `CommandManager::Disable` (part_000, lines 227-242): when
`m_Device` tests true it queries the VRS command-list interface and issues
`RSSetShadingRate(1X1, nullptr)` and `RSSetShadingRateImage(nullptr)` - two
command-list calls; otherwise it only traces. -/
def Disable (st : ManagerState) (_commandList : Nat) : DisableResult :=
  if st.device then { state := st, rsCalls := 2 }
  else { state := st, rsCalls := 0 }

/-- One queue-level wait issued by `SyncQueue`: (command list identity, fence
value), per `pCommandQueue->Wait(m_Context->GetCompletionFence(), fenceValue)`.
All waits of one call target the queue passed to that call. -/
abbrev QueueWait := Nat × Nat

/-- Embeds `CommandManager::SyncQueue` (part_000, lines 244-269): walks the
given command lists in order; for each one with a pending dependency record it
issues one queue-level wait for the recorded fence value and erases the
record; command lists without a record are skipped. Returns the new state and
the waits issued, in order. -/
def SyncQueue (st : ManagerState) (commandLists : List Nat) :
    ManagerState × List QueueWait :=
  match commandLists with
  | [] => (st, [])
  | cl :: rest =>
    match st.commandListDependencies cl with
    | some dep =>
        let st1 := { st with
          commandListDependencies := eraseKey st.commandListDependencies cl }
        let r := SyncQueue st1 rest
        (r.1, (cl, dep.fenceValue) :: r.2)
    | none => SyncQueue st rest

/-- Embeds `CommandManager::Present` (part_000, lines 271-317): every cache
entry's age is incremented and entries whose incremented age exceeds 100 are
erased; the same aging pass runs over the pending command-list dependency
records; finally the generation counter advances. `Present` records no
command-list work and issues no queue wait (the source body contains no
`Wait` call), so the state is the only output. -/
def Present (st : ManagerState) : ManagerState :=
  { st with
    shadingRateMaps := fun r =>
      match st.shadingRateMaps r with
      | some e => if e.age + 1 > 100 then none else some { e with age := e.age + 1 }
      | none => none
    commandListDependencies := fun c =>
      match st.commandListDependencies c with
      | some d => if d.age + 1 > 100 then none else some { d with age := d.age + 1 }
      | none => none
    currentGeneration := st.currentGeneration + 1 }

/-- Iterated `Present`: `n` consecutive present events with no other call in
between. -/
def presentN : Nat → ManagerState → ManagerState
  | 0, st => st
  | n + 1, st => presentN n (Present st)

/-- Fence values returned by `n` successive `submitCommandList` calls starting
from fence counter `c`, in submission order. -/
def submitFenceValues (c : Nat) : Nat → List Nat
  | 0 => []
  | n + 1 =>
      let s := submitCommandList c
      s.2 :: submitFenceValues s.1 n

/-- Feature-support data of a device reporting variable-shading-rate tier 1:
the constructor's support check rejects it. -/
def tier1Options : FeatureSupport := ⟨false, 1, 16⟩

/-- C1 (code bug): the claim - and the otherwise-dead
"VRSEnable_NotSupported" / "VRSDisable_NotSupported" trace branches of the
source - say the manager degrades to a no-op passthrough on an unsupported
device. The code does not: `m_Device` is assigned in the constructor's
initializer list before the support check (part_000, line 89), so after the
early return (which leaves `m_VRSTileSize` at 0) the `if (m_Device)` guards in
`Enable` and `Disable` still take the enabled path. `Enable` then computes
`Align(width, 0) / 0`, an integer division by zero (undefined behaviour,
modelled as `none`), and `Disable` still issues its two command-list calls
instead of none. -/
theorem C1_unsupported_device_not_noop :
    (CommandManager.init true tier1Options).vrsTileSize = 0 ∧
    (CommandManager.init true tier1Options).device = true ∧
    Enable (CommandManager.init true tier1Options) 7 1920 1080 none 0 = none ∧
    (Disable (CommandManager.init true tier1Options) 7).rsCalls = 2 := by
  refine ⟨?_, ?_, ?_, ?_⟩ <;>
    simp [Enable, Disable, CommandManager.init, tiledResolutionOf, tier1Options]

/-- C5: the tile classifier of `GenerateShadingRateMapCS` uses an inclusive
comparison at both radius thresholds, so the boundary tile belongs to the
coarser band: a tile at distance exactly the inner ring radius classifies as
medium rate (not full rate), a tile at distance exactly the outer ring radius
classifies as lowest rate (not medium), and a tile strictly inside the inner
ring classifies as full rate. The ring radii produced by
`UpdateShadingRateMap` (0.25 and 0.8 of the tiled height) satisfy the strict
ordering this needs, for every positive tiled height. -/
theorem C5_classifier_boundary_inclusive (c : Constants)
    (hio : c.innerRing < c.outerRing) :
    shaderClassify c c.innerRing = c.rateMedium ∧
    shaderClassify c c.outerRing = c.rateLow ∧
    (∀ d : ℚ, d < c.innerRing → shaderClassify c d = c.rate1x1) ∧
    (∀ (cx cy : ℚ) (res : TiledResolution), 0 < res.height →
      (mapConstants cx cy res).innerRing < (mapConstants cx cy res).outerRing) := by
  refine ⟨?_, ?_, ?_, ?_⟩
  · unfold shaderClassify
    rw [if_neg (not_le.mpr hio), if_pos le_rfl]
  · unfold shaderClassify
    rw [if_pos le_rfl]
  · intro d hd
    unfold shaderClassify
    rw [if_neg (not_le.mpr (hd.trans hio)), if_neg (not_le.mpr hd)]
  · intro cx cy res hres
    have h : (0 : ℚ) < res.height := by exact_mod_cast hres
    simp only [mapConstants, innerRingOf, outerRingOf]
    linarith

/-- Witness for C5 at the constants generated for tiled resolution 120 x 68
with a centered focus point. -/
theorem C5_classifier_boundary_inclusive_witness :
    (mapConstants (1 / 2) (1 / 2) ⟨120, 68⟩).innerRing <
      (mapConstants (1 / 2) (1 / 2) ⟨120, 68⟩).outerRing ∧
    shaderClassify (mapConstants (1 / 2) (1 / 2) ⟨120, 68⟩)
        (mapConstants (1 / 2) (1 / 2) ⟨120, 68⟩).innerRing =
      (mapConstants (1 / 2) (1 / 2) ⟨120, 68⟩).rateMedium :=
  ⟨by norm_num [mapConstants, innerRingOf, outerRingOf],
    (C5_classifier_boundary_inclusive _
      (by norm_num [mapConstants, innerRingOf, outerRingOf])).1⟩

/-- C9: the fence values returned by successive `SubmitCommandList` calls of
the generation context are strictly increasing (any later submission returns a
strictly greater value than any earlier one, and every returned value exceeds
the starting counter), and the completion query compares a stored value
against the completed counter exactly as "has the counter reached the
value". -/
theorem C9_fence_values_strictly_increasing (c n : Nat) :
    (submitFenceValues c n).Pairwise (· < ·) ∧
    (∀ v ∈ submitFenceValues c n, c < v) ∧
    (∀ gpuCompleted v, isCommandListCompleted gpuCompleted v = true ↔
      v ≤ gpuCompleted) := by
  induction n generalizing c with
  | zero =>
      exact ⟨List.Pairwise.nil, by simp [submitFenceValues],
        by intro g v; simp [isCommandListCompleted]⟩
  | succ n ih =>
      obtain ⟨hp, hm, _⟩ := ih (c + 1)
      simp only [submitFenceValues, submitCommandList]
      refine ⟨?_, ?_, by intro g v; simp [isCommandListCompleted]⟩
      · exact List.Pairwise.cons (fun v hv => hm v hv) hp
      · intro v hv
        rcases List.mem_cons.mp hv with h | h
        · omega
        · exact Nat.lt_of_succ_lt (hm v h)

/-- Masking a value below `2 ^ n` with the complement (within `n` bits) of the
low `k` one-bits clears the value's low `k` bits, i.e. rounds it down to a
multiple of `2 ^ k`. -/
theorem land_mask_high (x n k : Nat) (hx : x < 2 ^ n) (hk : k ≤ n) :
    x &&& ((2 ^ n - 1) ^^^ (2 ^ k - 1)) = x / 2 ^ k * 2 ^ k := by
  have h1 : x / 2 ^ k * 2 ^ k = (x >>> k) <<< k := by
    rw [Nat.shiftRight_eq_div_pow, Nat.shiftLeft_eq]
  rw [h1]
  apply Nat.eq_of_testBit_eq
  intro i
  rw [Nat.testBit_land, Nat.testBit_xor, Nat.testBit_two_pow_sub_one,
    Nat.testBit_two_pow_sub_one, Nat.testBit_shiftLeft, Nat.testBit_shiftRight]
  rcases lt_or_le i k with hik | hik
  · have hin : i < n := lt_of_lt_of_le hik hk
    simp [hik, hin, Nat.not_le.mpr hik]
  · have hki : k + (i - k) = i := by omega
    rcases lt_or_le i n with hin | hin
    · simp [Nat.not_lt.mpr hik, hin, hik, hki]
    · have hxi : x.testBit i = false :=
        Nat.testBit_lt_two_pow
          (lt_of_lt_of_le hx (Nat.pow_le_pow_right (by norm_num) hin))
      simp [hxi, Nat.not_lt.mpr hik, Nat.not_lt.mpr hin, hik, hki]

/-- For a power-of-two pad and no 32-bit overflow of `value + pad_to - 1`,
`Align` rounds the value up to the next multiple of the pad. -/
theorem Align_pow2 (v k : Nat) (_hk : 1 ≤ k) (hv : 0 < v)
    (hvo : v + 2 ^ k ≤ UINT_MOD) :
    Align v (2 ^ k) = (v + 2 ^ k - 1) / 2 ^ k * 2 ^ k := by
  have h2k : 1 ≤ 2 ^ k := Nat.one_le_two_pow
  unfold Align UINT_MOD at *
  have h2klt : 2 ^ k < 2 ^ 32 := by omega
  have hkle : k ≤ 32 :=
    Nat.le_of_lt ((Nat.pow_lt_pow_iff_right (by norm_num)).mp h2klt)
  have hlt : v + 2 ^ k - 1 < 2 ^ 32 := by omega
  have e1 : (v + 2 ^ k + (2 ^ 32 - 1)) % 2 ^ 32 = v + 2 ^ k - 1 := by
    have h : v + 2 ^ k + (2 ^ 32 - 1) = (v + 2 ^ k - 1) + 2 ^ 32 := by omega
    rw [h, Nat.add_mod_right, Nat.mod_eq_of_lt hlt]
  have e2 : (2 ^ k + (2 ^ 32 - 1)) % 2 ^ 32 = 2 ^ k - 1 := by
    have h : 2 ^ k + (2 ^ 32 - 1) = (2 ^ k - 1) + 2 ^ 32 := by omega
    rw [h, Nat.add_mod_right, Nat.mod_eq_of_lt (by omega)]
  rw [e1, e2]
  exact land_mask_high _ 32 k hlt hkle

/-- C8 counterexample: `Align` is computed in 32-bit unsigned arithmetic, so
`value + pad_to - 1` overflows for large inputs. For a viewport of
2147483776 x 2147483776 (a positive integer dimension, exactly representable
as a 32-bit float) and tile size 2147483648 = 2^31 (a power of two, at least
2, so accepted by the constructor's support check), the tiled resolution the
code computes is 0 x 0, whereas ceil(2147483776 / 2^31) = 2: the claimed
equality with the ceiling division fails, and so does the claimed
non-zeroness. -/
theorem C8_counterexample_align_overflow :
    tiledResolutionOf 2147483776 2147483776 2147483648 = some ⟨0, 0⟩ ∧
    (2147483776 : Nat) ⌈/⌉ 2147483648 = 2 ∧
    (2147483648 : Nat) = 2 ^ 31 ∧ 2 ≤ 2147483648 ∧ 0 < 2147483776 := by
  refine ⟨by decide, ?_, by norm_num, by norm_num, by norm_num⟩
  rw [Nat.ceilDiv_eq_add_pred_div]

/-- C8 (amended): for every viewport with positive integer width and height
and every supported tile size (a power of two, at least 2), provided the
32-bit computation `dimension + tileSize - 1` does not overflow, the tiled
resolution computed by `Enable` equals `ceil(dimension / tileSize)` in each
dimension and is never zero; in particular a 1920 x 1080 viewport with tile
size 16 yields tiled resolution 120 x 68. -/
theorem C8_tiled_resolution_ceil (vpW vpH tileSize k : Nat)
    (hk : 1 ≤ k) (ht : tileSize = 2 ^ k) (hW : 0 < vpW) (hH : 0 < vpH)
    (hWo : vpW + tileSize ≤ UINT_MOD) (hHo : vpH + tileSize ≤ UINT_MOD) :
    tiledResolutionOf vpW vpH tileSize =
      some ⟨vpW ⌈/⌉ tileSize, vpH ⌈/⌉ tileSize⟩ ∧
    0 < vpW ⌈/⌉ tileSize ∧ 0 < vpH ⌈/⌉ tileSize ∧
    tiledResolutionOf 1920 1080 16 = some ⟨120, 68⟩ := by
  subst ht
  have hpos : 0 < 2 ^ k := Nat.two_pow_pos k
  have hdivW : Align vpW (2 ^ k) / 2 ^ k = vpW ⌈/⌉ 2 ^ k := by
    rw [Align_pow2 vpW k hk hW hWo, Nat.mul_div_cancel _ hpos,
      Nat.ceilDiv_eq_add_pred_div]
  have hdivH : Align vpH (2 ^ k) / 2 ^ k = vpH ⌈/⌉ 2 ^ k := by
    rw [Align_pow2 vpH k hk hH hHo, Nat.mul_div_cancel _ hpos,
      Nat.ceilDiv_eq_add_pred_div]
  refine ⟨?_, ?_, ?_, by decide⟩
  · unfold tiledResolutionOf
    rw [if_neg (Nat.pos_iff_ne_zero.mp hpos), hdivW, hdivH]
  · rw [Nat.ceilDiv_eq_add_pred_div]
    exact Nat.div_pos (by omega) hpos
  · rw [Nat.ceilDiv_eq_add_pred_div]
    exact Nat.div_pos (by omega) hpos

/-- Witness for the amended C8 at the spec's own scenario: viewport
1920 x 1080, tile size 16 = 2^4. -/
theorem C8_tiled_resolution_ceil_witness :
    (1 ≤ 4 ∧ (16 : Nat) = 2 ^ 4 ∧ (0 : Nat) < 1920 ∧ (0 : Nat) < 1080 ∧
      1920 + 16 ≤ UINT_MOD ∧ 1080 + 16 ≤ UINT_MOD) ∧
    tiledResolutionOf 1920 1080 16 = some ⟨120, 68⟩ ∧
    0 < (1920 : Nat) ⌈/⌉ 16 :=
  ⟨⟨by norm_num, by norm_num, by norm_num, by norm_num,
      by norm_num [UINT_MOD], by norm_num [UINT_MOD]⟩,
    (C8_tiled_resolution_ceil 1920 1080 16 4 (by norm_num) (by norm_num)
      (by norm_num) (by norm_num) (by norm_num [UINT_MOD])
      (by norm_num [UINT_MOD])).2.2.2,
    (C8_tiled_resolution_ceil 1920 1080 16 4 (by norm_num) (by norm_num)
      (by norm_num) (by norm_num) (by norm_num [UINT_MOD])
      (by norm_num [UINT_MOD])).2.1⟩

/-- An empty cache slot stays empty under iterated `Present`. -/
theorem presentN_maps_none (res : TiledResolution) :
    ∀ (n : Nat) (st : ManagerState), st.shadingRateMaps res = none →
      (presentN n st).shadingRateMaps res = none
  | 0, _, h => h
  | n + 1, st, h =>
      presentN_maps_none res n (Present st) (by simp [Present, h])

/-- Age evolution of a cache entry under iterated `Present`: the entry ages by
one per present and is erased at the first present taking its age past 100. -/
theorem presentN_maps_some (res : TiledResolution) :
    ∀ (n : Nat) (st : ManagerState) (e : ShadingRateMap),
      st.shadingRateMaps res = some e → e.age ≤ 100 →
      (presentN n st).shadingRateMaps res =
        if e.age + n ≤ 100 then some { e with age := e.age + n } else none
  | 0, st, e, h, ha => by
      rw [presentN, if_pos (by omega : e.age + 0 ≤ 100)]
      exact h
  | n + 1, st, e, h, ha => by
      rw [presentN]
      by_cases h100 : e.age = 100
      · have hnone : (Present st).shadingRateMaps res = none := by
          simp [Present, h, h100]
        rw [presentN_maps_none res n _ hnone, if_neg (by omega)]
      · have hlt : ¬ (e.age + 1 > 100) := by omega
        have hsome : (Present st).shadingRateMaps res =
            some { e with age := e.age + 1 } := by
          simp [Present, h, hlt]
        rw [presentN_maps_some res n _ _ hsome (by simp; omega)]
        have harith : e.age + 1 + n = e.age + (n + 1) := by omega
        simp [harith]

/-- An absent dependency record stays absent under iterated `Present`. -/
theorem presentN_deps_none (cl : Nat) :
    ∀ (n : Nat) (st : ManagerState), st.commandListDependencies cl = none →
      (presentN n st).commandListDependencies cl = none
  | 0, _, h => h
  | n + 1, st, h =>
      presentN_deps_none cl n (Present st) (by simp [Present, h])

/-- Age evolution of a dependency record under iterated `Present`, mirroring
`presentN_maps_some`. -/
theorem presentN_deps_some (cl : Nat) :
    ∀ (n : Nat) (st : ManagerState) (d : CommandListDependency),
      st.commandListDependencies cl = some d → d.age ≤ 100 →
      (presentN n st).commandListDependencies cl =
        if d.age + n ≤ 100 then some { d with age := d.age + n } else none
  | 0, st, d, h, ha => by
      rw [presentN, if_pos (by omega : d.age + 0 ≤ 100)]
      exact h
  | n + 1, st, d, h, ha => by
      rw [presentN]
      by_cases h100 : d.age = 100
      · have hnone : (Present st).commandListDependencies cl = none := by
          simp [Present, h, h100]
        rw [presentN_deps_none cl n _ hnone, if_neg (by omega)]
      · have hlt : ¬ (d.age + 1 > 100) := by omega
        have hsome : (Present st).commandListDependencies cl =
            some { d with age := d.age + 1 } := by
          simp [Present, h, hlt]
        rw [presentN_deps_some cl n _ _ hsome (by simp; omega)]
        have harith : d.age + 1 + n = d.age + (n + 1) := by omega
        simp [harith]

/-- C4: on every `Present` each cache entry's age is incremented and an entry
is removed exactly when its incremented age exceeds 100: an entry unused for
100 consecutive presents still exists (age 100) after the 100th and is evicted
on the 101st present's pass (so an entry whose age was reset to 0 on frame 99
survives 100 further presents, past frame 199); the same aging rule removes
dependency-tracker records for command lists never submitted, and no queue
wait is ever issued for the removed record (a later `SyncQueue` for that
command list issues none; `Present` itself returns only a state and performs
no wait). -/
theorem C4_present_aging_eviction (st : ManagerState) (res : TiledResolution)
    (e : ShadingRateMap) (cl : Nat) (d : CommandListDependency)
    (he : st.shadingRateMaps res = some e) (hea : e.age = 0)
    (hd : st.commandListDependencies cl = some d) (hda : d.age = 0) :
    (∀ (r : TiledResolution) (e' : ShadingRateMap),
      st.shadingRateMaps r = some e' →
      (Present st).shadingRateMaps r =
        if 100 < e'.age + 1 then none else some { e' with age := e'.age + 1 }) ∧
    (∀ (c : Nat) (d' : CommandListDependency),
      st.commandListDependencies c = some d' →
      (Present st).commandListDependencies c =
        if 100 < d'.age + 1 then none else some { d' with age := d'.age + 1 }) ∧
    (presentN 100 st).shadingRateMaps res = some { e with age := 100 } ∧
    (presentN 101 st).shadingRateMaps res = none ∧
    (presentN 100 st).commandListDependencies cl = some { d with age := 100 } ∧
    (presentN 101 st).commandListDependencies cl = none ∧
    (SyncQueue (presentN 101 st) [cl]).2 = [] := by
  have h100 := presentN_maps_some res 100 st e he (by omega)
  have h101 := presentN_maps_some res 101 st e he (by omega)
  have g100 := presentN_deps_some cl 100 st d hd (by omega)
  have g101 := presentN_deps_some cl 101 st d hd (by omega)
  rw [hea] at h100 h101
  rw [hda] at g100 g101
  norm_num at h100 h101 g100 g101
  refine ⟨?_, ?_, h100, h101, g100, g101, ?_⟩
  · intro r e' h
    simp [Present, h]
  · intro c d' h
    simp [Present, h]
  · simp [SyncQueue, g101]

/-- Sample cache entry used by concrete witnesses. -/
def sampleEntry : ShadingRateMap :=
  { generation := 0, age := 0, textureId := 0
    content := mapConstants (1 / 2) (1 / 2) ⟨120, 68⟩
    completedFenceValue := 1 }

/-- Sample dependency record used by concrete witnesses. -/
def sampleDep : CommandListDependency := ⟨1, 0⟩

/-- Sample manager state used by concrete witnesses: a supported device with
one cache entry (tiled resolution 120 x 68) and one pending dependency record
for command list 7. -/
def sampleState : ManagerState :=
  { device := true
    vrsTileSize := 16
    shadingRateMaps := (fun r => if r = ⟨120, 68⟩ then some sampleEntry else none)
    currentGeneration := 0
    usingEyeGaze := false
    commandListDependencies := (fun c => if c = 7 then some sampleDep else none)
    fenceCounter := 1
    nextTextureId := 1 }

/-- Witness for C4 on `sampleState`: the entry and the record survive 100
presents and are gone after the 101st. -/
theorem C4_present_aging_eviction_witness :
    (sampleState.shadingRateMaps ⟨120, 68⟩ = some sampleEntry ∧
      sampleEntry.age = 0 ∧
      sampleState.commandListDependencies 7 = some sampleDep ∧
      sampleDep.age = 0) ∧
    (presentN 100 sampleState).shadingRateMaps ⟨120, 68⟩ =
      some { sampleEntry with age := 100 } ∧
    (presentN 101 sampleState).shadingRateMaps ⟨120, 68⟩ = none ∧
    (presentN 101 sampleState).commandListDependencies 7 = none ∧
    (SyncQueue (presentN 101 sampleState) [7]).2 = [] := by
  have h := C4_present_aging_eviction sampleState ⟨120, 68⟩ sampleEntry 7 sampleDep
    (by simp [sampleState]) rfl (by simp [sampleState]) rfl
  exact ⟨⟨by simp [sampleState], rfl, by simp [sampleState], rfl⟩,
    h.2.2.1, h.2.2.2.1, h.2.2.2.2.2.1, h.2.2.2.2.2.2⟩

/-- If a command list has no pending record, a `SyncQueue` walk issues no wait
for it and leaves it without a record. -/
theorem syncQueue_deps_none (cl : Nat) :
    ∀ (cls : List Nat) (st : ManagerState),
      st.commandListDependencies cl = none →
      (SyncQueue st cls).2.filter (fun w => w.1 == cl) = [] ∧
        (SyncQueue st cls).1.commandListDependencies cl = none
  | [], _, h => ⟨rfl, h⟩
  | c :: rest, st, h => by
      cases hc : st.commandListDependencies c with
      | none =>
          simpa [SyncQueue, hc] using syncQueue_deps_none cl rest st h
      | some dep =>
          have hne : (c == cl) = false := by
            refine beq_eq_false_iff_ne.mpr fun hcc => ?_
            rw [hcc, h] at hc
            exact Option.noConfusion hc
          have h1 : (eraseKey st.commandListDependencies c) cl = none := by
            unfold eraseKey
            by_cases hcc : cl = c <;> simp [hcc, h]
          obtain ⟨hf, hdn⟩ := syncQueue_deps_none cl rest
            { st with commandListDependencies := eraseKey st.commandListDependencies c }
            h1
          simp only [SyncQueue, hc]
          exact ⟨by simp [List.filter_cons, hne, hf], hdn⟩

/-- If a command list has a pending record and appears among the walked lists,
`SyncQueue` issues exactly one wait for it, carrying the record's fence value,
and removes the record. -/
theorem syncQueue_deps_some (cl : Nat) (d : CommandListDependency) :
    ∀ (cls : List Nat) (st : ManagerState),
      st.commandListDependencies cl = some d → cl ∈ cls →
      (SyncQueue st cls).2.filter (fun w => w.1 == cl) = [(cl, d.fenceValue)] ∧
        (SyncQueue st cls).1.commandListDependencies cl = none
  | [], _, _, hm => absurd hm (List.not_mem_nil cl)
  | c :: rest, st, h, hm => by
      by_cases hcc : c = cl
      · subst hcc
        have h1 : (eraseKey st.commandListDependencies c) c = none := by
          simp [eraseKey]
        obtain ⟨hf, hdn⟩ := syncQueue_deps_none c rest
          { st with commandListDependencies := eraseKey st.commandListDependencies c }
          h1
        simp only [SyncQueue, h]
        exact ⟨by simp [List.filter_cons, hf], hdn⟩
      · have hm' : cl ∈ rest := by
          rcases List.mem_cons.mp hm with hh | hh
          · exact absurd hh.symm hcc
          · exact hh
        have hne : (c == cl) = false := beq_eq_false_iff_ne.mpr hcc
        cases hc : st.commandListDependencies c with
        | none =>
            simpa [SyncQueue, hc] using syncQueue_deps_some cl d rest st h hm'
        | some dep =>
            have hcl : ¬ cl = c := fun hx => hcc hx.symm
            have h1 : (eraseKey st.commandListDependencies c) cl = some d := by
              unfold eraseKey
              simp [hcl, h]
            obtain ⟨hf, hdn⟩ := syncQueue_deps_some cl d rest
              { st with commandListDependencies := eraseKey st.commandListDependencies c }
              h1 hm'
            simp only [SyncQueue, hc]
            exact ⟨by simp [List.filter_cons, hne, hf], hdn⟩

/-- A command list not among the walked lists gets no wait and its record (or
absence of one) is untouched. -/
theorem syncQueue_not_mem (cl : Nat) :
    ∀ (cls : List Nat) (st : ManagerState), cl ∉ cls →
      (SyncQueue st cls).2.filter (fun w => w.1 == cl) = [] ∧
        (SyncQueue st cls).1.commandListDependencies cl =
          st.commandListDependencies cl
  | [], _, _ => ⟨rfl, rfl⟩
  | c :: rest, st, hm => by
      have hcc : c ≠ cl := fun hx => hm (hx ▸ List.mem_cons_self c rest)
      have hm' : cl ∉ rest := fun hx => hm (List.mem_cons_of_mem c hx)
      have hne : (c == cl) = false := beq_eq_false_iff_ne.mpr hcc
      cases hc : st.commandListDependencies c with
      | none =>
          simpa [SyncQueue, hc] using syncQueue_not_mem cl rest st hm'
      | some dep =>
          have hcl : ¬ cl = c := fun hx => hcc hx.symm
          have heq : (eraseKey st.commandListDependencies c) cl =
              st.commandListDependencies cl := by
            unfold eraseKey
            simp [hcl]
          obtain ⟨hf, hdn⟩ := syncQueue_not_mem cl rest
            { st with commandListDependencies := eraseKey st.commandListDependencies c }
            hm'
          simp only [SyncQueue, hc]
          exact ⟨by simp [List.filter_cons, hne, hf], hdn.trans heq⟩

/-- C6: for every state and list of command lists passed to `SyncQueue`: each
walked command list with a pending dependency record gets exactly one
queue-level wait, for that record's stored fence value, and its record is
removed; a walked command list with no pending record gets no wait and its
tracker slot is unchanged (still empty); a command list not passed at all is
untouched. -/
theorem C6_syncQueue_resolves_dependencies (st : ManagerState)
    (commandLists : List Nat) :
    (∀ (cl : Nat) (d : CommandListDependency), cl ∈ commandLists →
      st.commandListDependencies cl = some d →
      (SyncQueue st commandLists).2.filter (fun w => w.1 == cl) =
        [(cl, d.fenceValue)] ∧
      (SyncQueue st commandLists).1.commandListDependencies cl = none) ∧
    (∀ cl : Nat, st.commandListDependencies cl = none →
      (SyncQueue st commandLists).2.filter (fun w => w.1 == cl) = [] ∧
      (SyncQueue st commandLists).1.commandListDependencies cl =
        st.commandListDependencies cl) ∧
    (∀ cl : Nat, cl ∉ commandLists →
      (SyncQueue st commandLists).2.filter (fun w => w.1 == cl) = [] ∧
      (SyncQueue st commandLists).1.commandListDependencies cl =
        st.commandListDependencies cl) := by
  refine ⟨fun cl d hm hd => syncQueue_deps_some cl d commandLists st hd hm,
    fun cl hd => ?_, fun cl hm => syncQueue_not_mem cl commandLists st hm⟩
  obtain ⟨hf, h1⟩ := syncQueue_deps_none cl commandLists st hd
  exact ⟨hf, h1.trans hd.symm⟩

/-- Witness for C6 on `sampleState`: command list 7 has a record (one wait for
fence value 1, record removed); command list 9 has none (no wait, no change). -/
theorem C6_syncQueue_resolves_dependencies_witness :
    (7 ∈ [7, 9] ∧ sampleState.commandListDependencies 7 = some sampleDep ∧
      sampleState.commandListDependencies 9 = none) ∧
    (SyncQueue sampleState [7, 9]).2.filter (fun w => w.1 == 7) =
      [(7, sampleDep.fenceValue)] ∧
    (SyncQueue sampleState [7, 9]).1.commandListDependencies 7 = none ∧
    (SyncQueue sampleState [7, 9]).2.filter (fun w => w.1 == 9) = [] ∧
    (SyncQueue sampleState [7, 9]).1.commandListDependencies 9 = none := by
  have h1 := (C6_syncQueue_resolves_dependencies sampleState [7, 9]).1 7 sampleDep
    (by decide) (by simp [sampleState])
  have h2 := (C6_syncQueue_resolves_dependencies sampleState [7, 9]).2.1 9
    (by simp [sampleState])
  exact ⟨⟨by decide, by simp [sampleState], by simp [sampleState]⟩,
    h1.1, h1.2, h2.1, h2.2.trans (by simp [sampleState])⟩

/-- Cache-hit step of `enableCore` when focus input is unavailable (no gaze
now and none on the previous call): no regeneration happens regardless of the
entry's generation; the entry's content, fence value and generation are
untouched and only its age resets. -/
theorem enableCore_hit_noGaze (st : ManagerState) (cl : Nat)
    (res : TiledResolution) (gpu : Nat) (entry : ShadingRateMap)
    (hhit : st.shadingRateMaps res = some entry)
    (hgaze : st.usingEyeGaze = false) :
    enableCore st cl res none gpu =
      { state := { st with
          usingEyeGaze := false
          shadingRateMaps :=
            insertOrAssign st.shadingRateMaps res { entry with age := 0 }
          fenceCounter := st.fenceCounter
          commandListDependencies :=
            if isCommandListCompleted gpu entry.completedFenceValue then
              st.commandListDependencies
            else
              insertOrAssign st.commandListDependencies cl
                ⟨entry.completedFenceValue, 0⟩ }
        dispatches := []
        rsCalls := 2
        boundTexture := some entry.textureId } := by
  simp [enableCore, hhit, hgaze]

/-- Cache-hit step of `enableCore` when focus input is available (gaze present
now, or present on the previous call) and the entry is stale: the entry is
regenerated in place exactly once with the gaze values (or, with no gaze this
call, the defaults 0.5, 0.5 and 600 mm), its fence value becomes the next
submission's, and its generation becomes current. -/
theorem enableCore_hit_stale (st : ManagerState) (cl : Nat)
    (res : TiledResolution) (gaze : Option (ℚ × ℚ × ℚ)) (gpu : Nat)
    (entry : ShadingRateMap)
    (hhit : st.shadingRateMaps res = some entry)
    (havail : (gaze.isSome || st.usingEyeGaze) = true)
    (hstale : entry.generation ≠ st.currentGeneration) :
    enableCore st cl res gaze gpu =
      { state := { st with
          usingEyeGaze := gaze.isSome
          shadingRateMaps := insertOrAssign st.shadingRateMaps res
            { entry with
                content := mapConstants (gaze.getD (1 / 2, 1 / 2, 600)).1
                  (gaze.getD (1 / 2, 1 / 2, 600)).2.1 res
                completedFenceValue := st.fenceCounter + 1
                generation := st.currentGeneration
                age := 0 }
          fenceCounter := st.fenceCounter + 1
          commandListDependencies :=
            if isCommandListCompleted gpu (st.fenceCounter + 1) then
              st.commandListDependencies
            else
              insertOrAssign st.commandListDependencies cl
                ⟨st.fenceCounter + 1, 0⟩ }
        dispatches := [⟨mapConstants (gaze.getD (1 / 2, 1 / 2, 600)).1
            (gaze.getD (1 / 2, 1 / 2, 600)).2.1 res,
          scaleFactorOf (gaze.getD (1 / 2, 1 / 2, 600)).2.2⟩]
        rsCalls := 2
        boundTexture := some entry.textureId } := by
  simp [enableCore, hhit, havail, hstale, updateShadingRateMap,
    submitCommandList]

/-- Cache-hit step of `enableCore` when the entry's generation is already
current: no regeneration happens no matter whether focus input is available. -/
theorem enableCore_hit_current (st : ManagerState) (cl : Nat)
    (res : TiledResolution) (gaze : Option (ℚ × ℚ × ℚ)) (gpu : Nat)
    (entry : ShadingRateMap)
    (hhit : st.shadingRateMaps res = some entry)
    (hcur : entry.generation = st.currentGeneration) :
    enableCore st cl res gaze gpu =
      { state := { st with
          usingEyeGaze := gaze.isSome
          shadingRateMaps :=
            insertOrAssign st.shadingRateMaps res { entry with age := 0 }
          fenceCounter := st.fenceCounter
          commandListDependencies :=
            if isCommandListCompleted gpu entry.completedFenceValue then
              st.commandListDependencies
            else
              insertOrAssign st.commandListDependencies cl
                ⟨entry.completedFenceValue, 0⟩ }
        dispatches := []
        rsCalls := 2
        boundTexture := some entry.textureId } := by
  simp [enableCore, hhit, hcur]

/-- Shape of every cache-hit step of `enableCore`: some snapshot entry is
stored at the resolution and a dependency for the command list is recorded
with the snapshot's fence value exactly when that fence is not yet reported
complete. -/
theorem enableCore_hit_shape (st : ManagerState) (cl : Nat)
    (res : TiledResolution) (gaze : Option (ℚ × ℚ × ℚ)) (gpu : Nat)
    (entry : ShadingRateMap)
    (hhit : st.shadingRateMaps res = some entry) :
    ∃ (snapshot : ShadingRateMap) (fc : Nat) (ds : List DispatchCall),
      enableCore st cl res gaze gpu =
        { state := { st with
            usingEyeGaze := gaze.isSome
            shadingRateMaps := insertOrAssign st.shadingRateMaps res snapshot
            fenceCounter := fc
            commandListDependencies :=
              if isCommandListCompleted gpu snapshot.completedFenceValue then
                st.commandListDependencies
              else
                insertOrAssign st.commandListDependencies cl
                  ⟨snapshot.completedFenceValue, 0⟩ }
          dispatches := ds
          rsCalls := 2
          boundTexture := some snapshot.textureId } := by
  by_cases hav : (gaze.isSome || st.usingEyeGaze) = true
  · by_cases hcur : entry.generation = st.currentGeneration
    · exact ⟨_, _, _, enableCore_hit_current st cl res gaze gpu entry hhit hcur⟩
    · exact ⟨_, _, _, enableCore_hit_stale st cl res gaze gpu entry hhit hav hcur⟩
  · have hg : gaze.isSome = false := by
      cases hg : gaze.isSome <;> simp [hg] at hav ⊢
    have hug : st.usingEyeGaze = false := by
      cases hug : st.usingEyeGaze <;> simp [hug, hg] at hav ⊢
    have hnone : gaze = none := Option.not_isSome_iff_eq_none.mp (by simp [hg])
    subst hnone
    exact ⟨_, _, _, enableCore_hit_noGaze st cl res gpu entry hhit hug⟩

/-- C2: with an existing cache entry and unavailable focus input, `Enable`
returns the entry's existing content unchanged even when its generation
differs from the current one (the statement places no constraint on the
generation): no regeneration dispatch is issued, and two consecutive such
calls yield byte-identical map content - the same stored entry (same content,
same fence value, same generation) and the same bound texture both times. -/
theorem C2_no_focus_returns_cached (st : ManagerState)
    (cl1 cl2 vpW vpH gpu1 gpu2 : Nat) (res : TiledResolution)
    (entry : ShadingRateMap)
    (hdev : st.device = true)
    (hres : tiledResolutionOf vpW vpH st.vrsTileSize = some res)
    (hhit : st.shadingRateMaps res = some entry)
    (hgaze : st.usingEyeGaze = false) :
    ∃ r1 : EnableResult,
      Enable st cl1 vpW vpH none gpu1 = some r1 ∧
      r1.dispatches = [] ∧
      r1.state.shadingRateMaps res = some { entry with age := 0 } ∧
      r1.boundTexture = some entry.textureId ∧
      ∃ r2 : EnableResult,
        Enable r1.state cl2 vpW vpH none gpu2 = some r2 ∧
        r2.dispatches = [] ∧
        r2.state.shadingRateMaps res = some { entry with age := 0 } ∧
        r2.boundTexture = some entry.textureId := by
  have heq1 := enableCore_hit_noGaze st cl1 res gpu1 entry hhit hgaze
  have hEn1 : Enable st cl1 vpW vpH none gpu1 =
      some (enableCore st cl1 res none gpu1) := by
    simp [Enable, hdev, hres]
  have h1maps : (enableCore st cl1 res none gpu1).state.shadingRateMaps res =
      some { entry with age := 0 } := by
    rw [heq1]
    simp [insertOrAssign]
  have h1gaze : (enableCore st cl1 res none gpu1).state.usingEyeGaze = false := by
    rw [heq1]
  have h1dev : (enableCore st cl1 res none gpu1).state.device = true := by
    rw [heq1]
    exact hdev
  have h1tile : (enableCore st cl1 res none gpu1).state.vrsTileSize =
      st.vrsTileSize := by
    rw [heq1]
  have heq2 := enableCore_hit_noGaze (enableCore st cl1 res none gpu1).state cl2
    res gpu2 { entry with age := 0 } h1maps h1gaze
  have hEn2 : Enable (enableCore st cl1 res none gpu1).state cl2 vpW vpH none
      gpu2 = some (enableCore (enableCore st cl1 res none gpu1).state cl2 res
        none gpu2) := by
    simp [Enable, h1dev, h1tile, hres]
  refine ⟨_, hEn1, by rw [heq1], h1maps, by rw [heq1], _, hEn2, by rw [heq2],
    ?_, by rw [heq2]⟩
  rw [heq2]
  simp [insertOrAssign]

/-- Witness for C2 on `sampleState`. -/
theorem C2_no_focus_returns_cached_witness :
    (sampleState.device = true ∧
      tiledResolutionOf 1920 1080 sampleState.vrsTileSize = some ⟨120, 68⟩ ∧
      sampleState.shadingRateMaps ⟨120, 68⟩ = some sampleEntry ∧
      sampleState.usingEyeGaze = false) ∧
    ∃ r1 : EnableResult,
      Enable sampleState 8 1920 1080 none 5 = some r1 ∧
      r1.dispatches = [] ∧
      r1.state.shadingRateMaps ⟨120, 68⟩ = some { sampleEntry with age := 0 } := by
  refine ⟨⟨rfl, by decide, by simp [sampleState], rfl⟩, ?_⟩
  obtain ⟨r1, hEn, hdisp, hmaps, -, -⟩ :=
    C2_no_focus_returns_cached sampleState 8 9 1920 1080 5 5 ⟨120, 68⟩
      sampleEntry rfl (by decide) (by simp [sampleState]) rfl
  exact ⟨r1, hEn, hdisp, hmaps⟩

/-- C3: with an existing stale cache entry and available focus input, the next
`Enable` regenerates the entry exactly once: one dispatch is issued, the
stored fence value strictly increases, the entry's generation equals the
(unchanged) current generation afterwards, and any further `Enable` for the
same resolution in the same frame issues no dispatch. -/
theorem C3_stale_with_focus_regenerates_once (st : ManagerState)
    (cl vpW vpH gpu : Nat) (res : TiledResolution) (entry : ShadingRateMap)
    (g : ℚ × ℚ × ℚ)
    (hdev : st.device = true)
    (hres : tiledResolutionOf vpW vpH st.vrsTileSize = some res)
    (hhit : st.shadingRateMaps res = some entry)
    (hstale : entry.generation ≠ st.currentGeneration)
    (hfence : entry.completedFenceValue ≤ st.fenceCounter) :
    ∃ (r : EnableResult) (e1 : ShadingRateMap),
      Enable st cl vpW vpH (some g) gpu = some r ∧
      r.dispatches.length = 1 ∧
      r.state.shadingRateMaps res = some e1 ∧
      entry.completedFenceValue < e1.completedFenceValue ∧
      e1.generation = r.state.currentGeneration ∧
      r.state.currentGeneration = st.currentGeneration ∧
      (∀ (cl2 gpu2 : Nat) (gaze2 : Option (ℚ × ℚ × ℚ)),
        ∃ r2 : EnableResult,
          Enable r.state cl2 vpW vpH gaze2 gpu2 = some r2 ∧
          r2.dispatches = []) := by
  have havail : ((some g).isSome || st.usingEyeGaze) = true := by simp
  have heq := enableCore_hit_stale st cl res (some g) gpu entry hhit havail hstale
  simp only [Option.getD_some, Option.isSome_some] at heq
  have hEn : Enable st cl vpW vpH (some g) gpu =
      some (enableCore st cl res (some g) gpu) := by
    simp [Enable, hdev, hres]
  have hmaps : (enableCore st cl res (some g) gpu).state.shadingRateMaps res =
      some { entry with
        content := mapConstants g.1 g.2.1 res
        completedFenceValue := st.fenceCounter + 1
        generation := st.currentGeneration
        age := 0 } := by
    rw [heq]
    simp [insertOrAssign]
  have hdev2 : (enableCore st cl res (some g) gpu).state.device = true := by
    rw [heq]
    exact hdev
  have htile2 : (enableCore st cl res (some g) gpu).state.vrsTileSize =
      st.vrsTileSize := by
    rw [heq]
  have hgen2 : (enableCore st cl res (some g) gpu).state.currentGeneration =
      st.currentGeneration := by
    rw [heq]
  refine ⟨_, _, hEn, ?_, hmaps, ?_, ?_, hgen2, ?_⟩
  · rw [heq]
    rfl
  · show entry.completedFenceValue < st.fenceCounter + 1
    omega
  · rw [hgen2]
  intro cl2 gpu2 gaze2
  have heq2 := enableCore_hit_current (enableCore st cl res (some g) gpu).state
    cl2 res gaze2 gpu2 _ hmaps (by rw [hgen2])
  refine ⟨enableCore (enableCore st cl res (some g) gpu).state cl2 res gaze2
    gpu2, by simp [Enable, hdev2, htile2, hres], by simp [heq2]⟩

/-- Sample state whose cache entry is stale: the generation counter has
advanced past the entry's generation 0. -/
def sampleStateStale : ManagerState := { sampleState with currentGeneration := 1 }

/-- Witness for C3 on `sampleStateStale` with gaze (0.3, 0.6, 450 mm). -/
theorem C3_stale_with_focus_regenerates_once_witness :
    (sampleStateStale.device = true ∧
      tiledResolutionOf 1920 1080 sampleStateStale.vrsTileSize =
        some ⟨120, 68⟩ ∧
      sampleStateStale.shadingRateMaps ⟨120, 68⟩ = some sampleEntry ∧
      sampleEntry.generation ≠ sampleStateStale.currentGeneration ∧
      sampleEntry.completedFenceValue ≤ sampleStateStale.fenceCounter) ∧
    ∃ (r : EnableResult) (e1 : ShadingRateMap),
      Enable sampleStateStale 8 1920 1080 (some (3 / 10, 3 / 5, 450)) 1 =
        some r ∧
      r.dispatches.length = 1 ∧
      r.state.shadingRateMaps ⟨120, 68⟩ = some e1 ∧
      sampleEntry.completedFenceValue < e1.completedFenceValue := by
  refine ⟨⟨rfl, by decide, by simp [sampleStateStale, sampleState], by decide,
    by decide⟩, ?_⟩
  obtain ⟨r, e1, hEn, hlen, hmaps, hlt, -, -, -⟩ :=
    C3_stale_with_focus_regenerates_once sampleStateStale 8 1920 1080 1
      ⟨120, 68⟩ sampleEntry (3 / 10, 3 / 5, 450) rfl (by decide)
      (by simp [sampleStateStale, sampleState]) (by decide) (by decide)
  exact ⟨r, e1, hEn, hlen, hmaps, hlt⟩

/-- C7: on a cache hit, when the stored entry's producing fence value is
already reported complete, no dependency record is created or overwritten -
the tracker is left pointwise unchanged; otherwise exactly one record holding
that fence value with age 0 is stored for the command list, overwriting any
prior record for the same identity, and every other identity's record is
unchanged. -/
theorem C7_skip_dependency (st : ManagerState) (cl vpW vpH gpu : Nat)
    (res : TiledResolution) (entry : ShadingRateMap)
    (gaze : Option (ℚ × ℚ × ℚ))
    (hdev : st.device = true)
    (hres : tiledResolutionOf vpW vpH st.vrsTileSize = some res)
    (hhit : st.shadingRateMaps res = some entry) :
    ∃ (r : EnableResult) (snapshot : ShadingRateMap),
      Enable st cl vpW vpH gaze gpu = some r ∧
      r.state.shadingRateMaps res = some snapshot ∧
      (snapshot.completedFenceValue ≤ gpu →
        ∀ c, r.state.commandListDependencies c =
          st.commandListDependencies c) ∧
      (gpu < snapshot.completedFenceValue →
        r.state.commandListDependencies cl =
          some ⟨snapshot.completedFenceValue, 0⟩ ∧
        ∀ c, c ≠ cl → r.state.commandListDependencies c =
          st.commandListDependencies c) := by
  obtain ⟨snap, fc, ds, heq⟩ := enableCore_hit_shape st cl res gaze gpu entry hhit
  have hEn : Enable st cl vpW vpH gaze gpu =
      some (enableCore st cl res gaze gpu) := by
    simp [Enable, hdev, hres]
  refine ⟨_, snap, hEn, ?_, ?_, ?_⟩
  · rw [heq]
    simp [insertOrAssign]
  · intro h c
    rw [heq]
    simp [isCommandListCompleted, h]
  · intro h
    have hn : ¬ (snap.completedFenceValue ≤ gpu) := by omega
    constructor
    · rw [heq]
      simp [isCommandListCompleted, hn, insertOrAssign]
    · intro c hc
      rw [heq]
      simp [isCommandListCompleted, hn, insertOrAssign, hc]

/-- Witness for C7 on `sampleState`: with the GPU already at the entry's fence
value the tracker is unchanged. -/
theorem C7_skip_dependency_witness :
    (sampleState.device = true ∧
      tiledResolutionOf 1920 1080 sampleState.vrsTileSize = some ⟨120, 68⟩ ∧
      sampleState.shadingRateMaps ⟨120, 68⟩ = some sampleEntry) ∧
    ∃ (r : EnableResult) (snapshot : ShadingRateMap),
      Enable sampleState 8 1920 1080 none 5 = some r ∧
      r.state.shadingRateMaps ⟨120, 68⟩ = some snapshot ∧
      (snapshot.completedFenceValue ≤ 5 →
        ∀ c, r.state.commandListDependencies c =
          sampleState.commandListDependencies c) := by
  refine ⟨⟨rfl, by decide, by simp [sampleState]⟩, ?_⟩
  obtain ⟨r, snap, hEn, hmaps, hskip, -⟩ :=
    C7_skip_dependency sampleState 8 1920 1080 5 ⟨120, 68⟩ sampleEntry none
      rfl (by decide) (by simp [sampleState])
  exact ⟨r, snap, hEn, hmaps, hskip⟩

/-- C10 (implicit): when the eye-gaze source was available on the previous
`Enable` and is unavailable now, the next `Enable` for a stale cache entry
performs exactly one final regeneration using the default focus center
(0.5, 0.5) and the default distance 600 mm (whose scale factor is 1); the
latch `m_UsingEyeGaze` drops to false, and on any later `Enable` of a state
with the latch false and gaze still unavailable, a cache hit issues no
regeneration regardless of generation mismatch. -/
theorem C10_gaze_loss_final_regen (st : ManagerState) (cl vpW vpH gpu : Nat)
    (res : TiledResolution) (entry : ShadingRateMap)
    (hdev : st.device = true)
    (hres : tiledResolutionOf vpW vpH st.vrsTileSize = some res)
    (hhit : st.shadingRateMaps res = some entry)
    (hwas : st.usingEyeGaze = true)
    (hstale : entry.generation ≠ st.currentGeneration) :
    ∃ r : EnableResult,
      Enable st cl vpW vpH none gpu = some r ∧
      r.dispatches = [⟨mapConstants (1 / 2) (1 / 2) res, scaleFactorOf 600⟩] ∧
      scaleFactorOf 600 = 1 ∧
      r.state.usingEyeGaze = false ∧
      (∀ (t : ManagerState) (cl2 w2 h2 gpu2 : Nat) (res2 : TiledResolution)
        (e2 : ShadingRateMap),
        t.usingEyeGaze = false → t.device = true →
        tiledResolutionOf w2 h2 t.vrsTileSize = some res2 →
        t.shadingRateMaps res2 = some e2 →
        ∃ r2 : EnableResult,
          Enable t cl2 w2 h2 none gpu2 = some r2 ∧ r2.dispatches = []) := by
  have havail : ((none : Option (ℚ × ℚ × ℚ)).isSome || st.usingEyeGaze)
      = true := by
    simp [hwas]
  have heq := enableCore_hit_stale st cl res none gpu entry hhit havail hstale
  simp only [Option.getD_none, Option.isSome_none] at heq
  have hEn : Enable st cl vpW vpH none gpu =
      some (enableCore st cl res none gpu) := by
    simp [Enable, hdev, hres]
  refine ⟨_, hEn, by simp [heq], by norm_num [scaleFactorOf], by simp [heq], ?_⟩
  intro t cl2 w2 h2 gpu2 res2 e2 htg htd htres hthit
  have heq2 := enableCore_hit_noGaze t cl2 res2 gpu2 e2 hthit htg
  refine ⟨enableCore t cl2 res2 none gpu2, by simp [Enable, htd, htres],
    by simp [heq2]⟩

/-- Sample state in which the eye-gaze latch is set and the entry is stale:
gaze was available on the previous `Enable` and generation has advanced. -/
def sampleStateGazeLost : ManagerState :=
  { sampleState with currentGeneration := 1, usingEyeGaze := true }

/-- Witness for C10 on `sampleStateGazeLost`. -/
theorem C10_gaze_loss_final_regen_witness :
    (sampleStateGazeLost.device = true ∧
      tiledResolutionOf 1920 1080 sampleStateGazeLost.vrsTileSize =
        some ⟨120, 68⟩ ∧
      sampleStateGazeLost.shadingRateMaps ⟨120, 68⟩ = some sampleEntry ∧
      sampleStateGazeLost.usingEyeGaze = true ∧
      sampleEntry.generation ≠ sampleStateGazeLost.currentGeneration) ∧
    ∃ r : EnableResult,
      Enable sampleStateGazeLost 8 1920 1080 none 1 = some r ∧
      r.dispatches =
        [⟨mapConstants (1 / 2) (1 / 2) ⟨120, 68⟩, scaleFactorOf 600⟩] ∧
      r.state.usingEyeGaze = false := by
  refine ⟨⟨rfl, by decide, by simp [sampleStateGazeLost, sampleState], rfl,
    by decide⟩, ?_⟩
  obtain ⟨r, hEn, hdisp, -, hlatch, -⟩ :=
    C10_gaze_loss_final_regen sampleStateGazeLost 8 1920 1080 1 ⟨120, 68⟩
      sampleEntry rfl (by decide)
      (by simp [sampleStateGazeLost, sampleState]) rfl (by decide)
  exact ⟨r, hEn, hdisp, hlatch⟩

/-- Witness for C9: four successive submissions starting at counter 5. -/
theorem C9_fence_values_strictly_increasing_witness :
    (submitFenceValues 5 4).Pairwise (· < ·) ∧
    (6 ∈ submitFenceValues 5 4 ∧ 5 < 6) :=
  ⟨(C9_fence_values_strictly_increasing 5 4).1,
    by decide, (C9_fence_values_strictly_increasing 5 4).2.1 6 (by decide)⟩

end VRS
